import Mathlib

/-!
Shallow embedding of the concurrency-demo repository (thread pool,
cooperative scheduler, sender/receiver with retry, executor/callback
library, promise/continuation pipeline, async line counter), with
theorems settling the specification claims against the code.
-/

set_option maxHeartbeats 1000000

/-- A receiver completion signal: exactly one of the three channels
(`set_value`, `set_error`, `set_done`) fires per connected operation
(src/recv_sender.cpp, receiver protocol). -/
inductive Completion (α ε : Type) : Type
  | value (v : α)
  | error (e : ε)
  | done
deriving DecidableEq

/-- `fail_3::connect` (src/recv_sender.cpp:266-270): `return _op<R>{++count_, r}`.
Given the current counter of the sender it returns the new counter paired
with the count captured inside the returned operation state (both `count_ + 1`:
the increment happens at connect time). -/
def fail3_connect (count_ : Int) : Int × Int :=
  (count_ + 1, count_ + 1)

/-- `fail_3::_op::start` (src/recv_sender.cpp:253-264): with the captured
`count_`, signal `set_value(count_)` when `count_ > 3`, else `set_error(42)`. -/
def fail3_op_start (count_ : Int) : Completion Int Int :=
  if count_ > 3 then Completion.value count_ else Completion.error 42

/-- Counter of a `fail_3` instance (initially 0, src/recv_sender.cpp:245)
after `n` calls to `connect`; `start` never touches the counter. -/
def fail3_connectN : Nat → Int
  | 0 => 0
  | Nat.succ n => (fail3_connect (fail3_connectN n)).1

/-- The retry loop of `_retry_sender::_op` (src/recv_sender.cpp:192-215),
driven by `_retry_receiver` (src/recv_sender.cpp:167-183). The inner sender
is abstracted as `connectF : σ → Except ξ (σ × Completion α ε)`: from the
state of the sender, `connect` either throws (`Except.error`, the "potentially
throwing" re-construction at line 207) or yields the new sender state and
the completion that starting the fresh operation state will deliver.
`retryRun` is the receiver dispatch on the current inner completion `op`:
`set_value` and `set_done` forward to the outer receiver unchanged
(lines 171-176, 180-182); `set_error` discards the inner error and calls
`_op::_retry` (lines 177-179, 206-211), which re-connects and re-starts,
catching re-construction exceptions into the outer error channel.
`fuel` bounds the number of retries; `none` models non-termination. -/
def retryRun {σ ξ α ε : Type} (connectF : σ → Except ξ (σ × Completion α ε)) :
    Nat → σ → Completion α ε → Option (Completion α ξ)
  | 0, _, _ => none
  | Nat.succ fuel, s, op =>
    match op with
    | Completion.value v => some (Completion.value v)
    | Completion.done => some Completion.done
    | Completion.error _ =>
      match connectF s with
      | Except.error ex => some (Completion.error ex)
      | Except.ok (s2, op2) => retryRun connectF fuel s2 op2

/-- `::start(::connect(retry(s), sink))` (src/recv_sender.cpp:275):
the `_op` constructor performs the initial `::connect` of `s_` with a fresh `_retry_receiver`
(src/recv_sender.cpp:198-205, outside any try block, so a throw there goes to
the caller), then `start` starts the stored operation state and the retry
loop runs. -/
def retryMain {σ ξ α ε : Type} (fuel : Nat)
    (connectF : σ → Except ξ (σ × Completion α ε)) (s0 : σ) :
    Except ξ (Option (Completion α ξ)) :=
  match connectF s0 with
  | Except.error ex => Except.error ex
  | Except.ok (s1, op1) => Except.ok (retryRun connectF fuel s1 op1)

/-- `fail_3` as the inner sender of the retry loop: `::connect(s_, …)` calls
`fail_3::connect` on the lvalue sender (incrementing its counter) and the
`start` on the resulting operation state delivers `fail3_op_start` of the captured
count. `fail_3::connect` itself never throws. -/
def fail3_retry_connect : Int → Except Unit (Int × Completion Int Int) :=
  fun c => Except.ok ((fail3_connect c).1, fail3_op_start (fail3_connect c).2)

/-- Claim C1: connecting `retry(fail_3)` to a receiver and starting the
operation always completes through the value channel with value exactly 4:
the underlying `fail_3` signals error 42 on its first three attempts
(counts 1, 2, 3) and success with value 4 on the fourth. The whole scenario
is deterministic and single-threaded (every call is inline), so the result
is independent of scheduling. -/
theorem retry_fail3_completes_with_4 :
    retryMain 10 fail3_retry_connect 0 = Except.ok (some (Completion.value 4)) := by
  rfl

/-- The deferred-result cell backing `std::promise`/`std::future`
(src/thread_pool.cpp:37-38): not-ready, or fulfilled with a value, or
fulfilled with an error. -/
inductive PromiseState (α ε : Type) : Type
  | unset
  | value (v : α)
  | error (e : ε)
deriving DecidableEq

/-- How the worker `while (true)` loop exits (src/thread_pool.cpp:91-106):
`exited` via the `if (!m_enabled) break;` check, `blocked` waiting on the
condition variable with an empty queue, or `crashed e` when an exception
escapes the unprotected `task()` call at line 105 (leaving the thread
function with an uncaught exception). -/
inductive WorkerExit (ε : Type) : Type
  | exited
  | blocked
  | crashed (e : ε)
deriving DecidableEq

/-- `ThreadPool::execute` (src/thread_pool.cpp:61-65): `p.set_value(task());`
with no exception handling. A task body is modelled as `Except ε α` (its
normal result or the exception it raises). The result is the state of the promise
afterwards together with the exception, if any, that propagates out
of `execute` (when `task()` throws, `set_value` is never reached). -/
def ThreadPool.execute {α ε : Type} (task : Except ε α) :
    PromiseState α ε × Option ε :=
  match task with
  | Except.ok v => (PromiseState.value v, none)
  | Except.error e => (PromiseState.unset, some e)

/-- `ThreadPool::enqueue` queue effect (src/thread_pool.cpp:42-45):
`m_tasks.push(std::move(t))` pushes at the back of the FIFO `std::queue`
(front of the queue is the head of the list). -/
def ThreadPool.enqueue {α ε : Type} (m_tasks : List (Except ε α))
    (task : Except ε α) : List (Except ε α) :=
  m_tasks ++ [task]

/-- The loop of one worker from `ThreadPool::run` (src/thread_pool.cpp:87-106),
driven by `m_enabled` and the task queue: wait until `!m_enabled ||
!m_tasks.empty()`; if `!m_enabled`, break out without popping; otherwise
pop the front task and run it (each queued closure is
`execute(*p, t)`, src/thread_pool.cpp:40). Returns the promise states of
the tasks the worker executed (in order), the tasks left in the queue,
and how the loop ended. An exception escaping `task()` aborts the loop. -/
def ThreadPool.workerRun {α ε : Type} :
    Bool → List (Except ε α) →
      List (PromiseState α ε) × List (Except ε α) × WorkerExit ε
  | false, m_tasks => ([], m_tasks, WorkerExit.exited)
  | true, [] => ([], [], WorkerExit.blocked)
  | true, t :: m_tasks =>
    match ThreadPool.execute t with
    | (ps, none) =>
      (ps :: (ThreadPool.workerRun true m_tasks).1,
       (ThreadPool.workerRun true m_tasks).2.1,
       (ThreadPool.workerRun true m_tasks).2.2)
    | (ps, some e) => ([ps], m_tasks, WorkerExit.crashed e)

/-- `ThreadPool::stop` (src/thread_pool.cpp:74-85), called from the
destructor: sets `m_enabled = false` (then wakes and joins the workers). -/
def ThreadPool.stop (_m_enabled : Bool) : Bool := false

/-- Counterexample to claim C2 at the concrete throwing task
`Except.error 7`: the deferred result is NOT fulfilled with an error
outcome (it stays unset — `p.set_value(task())` has no handler, so
`set_value` is never called), and the exception does propagate into the
worker loop, crashing it. -/
theorem execute_exception_cex :
    ThreadPool.workerRun true [(Except.error 7 : Except Int Int)]
        = ([PromiseState.unset], [], WorkerExit.crashed 7) ∧
      (ThreadPool.workerRun true [(Except.error 7 : Except Int Int)]).1
        ≠ [PromiseState.error 7] := by
  exact ⟨rfl, by decide⟩

/-- Claim C2, amended: an exception raised in the body of a task is not captured
into the deferred result. `ThreadPool::execute` evaluates `task()` inside
`p.set_value(task())` with no try/catch, so the promise is left unset and
the exception propagates out of `execute` into the worker loop (which it
then escapes); any remaining queued tasks are left unexecuted. -/
theorem execute_exception_escapes {α ε : Type} (e : ε)
    (m_tasks : List (Except ε α)) :
    ThreadPool.execute (Except.error e : Except ε α)
        = (PromiseState.unset, some e) ∧
      ThreadPool.workerRun true (Except.error e :: m_tasks)
        = ([PromiseState.unset], m_tasks, WorkerExit.crashed e) :=
  ⟨rfl, rfl⟩

/-- Claim C8: submitting a pure nullary callable through the pool is the
identity on its return value. The first conjunct: for every pure `f`, the
worker fulfils the promise of the task with exactly `f ()`. The second conjunct
runs the two literal examples of the spec through the queue built by `enqueue`:
a lambda returning 1 yields a result equal to 1 and a lambda returning 2
yields 2 (the worker then blocks awaiting more work). -/
theorem enqueue_pure_roundtrip {α ε : Type} (f : Unit → α)
    (m_tasks : List (Except ε α)) :
    (ThreadPool.workerRun true (Except.ok (f ()) :: m_tasks)).1.head?
        = some (PromiseState.value (f ())) ∧
      ThreadPool.workerRun true
          (ThreadPool.enqueue (ThreadPool.enqueue [] (Except.ok 1))
            (Except.ok 2 : Except Unit Int))
        = ([PromiseState.value 1, PromiseState.value 2], [],
            WorkerExit.blocked) :=
  ⟨rfl, rfl⟩

/-- Claim C9: when the pool is destroyed while tasks remain queued, a worker
that wakes and observes the disabled flag breaks out of its loop at once
(`if (!m_enabled) break;`) without popping anything: no queued task is
executed, every queued task survives in the queue to be discarded, and no
promise is fulfilled (each backing promise dies unset). -/
theorem shutdown_discards_queued {α ε : Type} (m_enabled : Bool)
    (m_tasks : List (Except ε α)) :
    ThreadPool.workerRun (ThreadPool.stop m_enabled) m_tasks
      = ([], m_tasks, WorkerExit.exited) := by
  cases m_tasks with
  | nil => rfl
  | cons t ts => rfl

/-- `simple_execution_context::enqueue` (src/recv_sender.cpp:483 and
src/unnamed/part_001:47-49): `t->next = std::exchange(head, t)` pushes the
new entry onto the head of the singly linked list. The list is modelled as
a Lean list whose head is the `head` pointer of the linked list. -/
def simple_execution_context.enqueue {τ : Type} (head : List τ) (t : τ) :
    List τ :=
  t :: head

/-- `simple_execution_context::drain` (src/recv_sender.cpp:474-481 and
src/unnamed/part_001:41-46): `while (head != nullptr) { t = exchange(head,
head->next); t->execute(); }`. Returns the order in which entries are
resumed: pop from the head, resume, repeat until empty. -/
def simple_execution_context.drain {τ : Type} : List τ → List τ
  | [] => []
  | t :: rest => t :: simple_execution_context.drain rest

theorem drain_eq_id {τ : Type} (l : List τ) :
    simple_execution_context.drain l = l := by
  induction l with
  | nil => rfl
  | cons t rest ih => rw [simple_execution_context.drain, ih]

theorem foldl_enqueue_reverse {τ : Type} (ts : List τ) (q : List τ) :
    List.foldl simple_execution_context.enqueue q ts = ts.reverse ++ q := by
  induction ts generalizing q with
  | nil => simp
  | cons t rest ih =>
    rw [List.foldl_cons, ih, List.reverse_cons, List.append_assoc]
    rfl

/-- Claim C3: `drain()` resumes continuations in reverse-of-enqueue order.
First conjunct: draining a context on which the continuations `ts` were
scheduled (in list order, via `enqueue`) resumes them in exactly reversed
order. Second conjunct: for every pair A then B scheduled before any drain
— with arbitrary continuations scheduled before A (`xs`), between A and B
(`ys`) and after B (`zs`) — the resume order puts B strictly before A. -/
theorem drain_reverse_of_enqueue {τ : Type} (ts xs ys zs : List τ) (a b : τ) :
    simple_execution_context.drain
        (List.foldl simple_execution_context.enqueue [] ts) = ts.reverse ∧
      simple_execution_context.drain
          (List.foldl simple_execution_context.enqueue []
            (xs ++ a :: ys ++ b :: zs))
        = zs.reverse ++ b :: ys.reverse ++ a :: xs.reverse := by
  constructor
  · rw [drain_eq_id, foldl_enqueue_reverse, List.append_nil]
  · rw [drain_eq_id, foldl_enqueue_reverse, List.append_nil]
    simp

/-- Claim C10: the `fail_3` attempt counter is advanced by `connect`, not by
`start`. After `n` connects the counter is `n` (first conjunct); the n-th
connect captures count `n` by value in the operation state it returns
(second conjunct: the captured count equals the counter right after the
n-th connect); starting that state signals `error 42` exactly when the
captured count is at most 3 and `value n` exactly when it is at least 4
(so the outcome is fixed at connect time, and connecting without starting
still consumes an attempt). -/
theorem fail3_connect_advances_counter (n : Nat) :
    fail3_connectN n = (n : Int) ∧
      (fail3_connect (fail3_connectN n)).2 = fail3_connectN (n + 1) ∧
      ((n : Int) + 1 ≤ 3 →
        fail3_op_start (fail3_connectN (n + 1)) = Completion.error 42) ∧
      (4 ≤ (n : Int) + 1 →
        fail3_op_start (fail3_connectN (n + 1)) = Completion.value ((n : Int) + 1)) := by
  have hN : ∀ m : Nat, fail3_connectN m = (m : Int) := by
    intro m
    induction m with
    | zero => rfl
    | succ k ih =>
      rw [fail3_connectN, ih, fail3_connect]
      push_cast
      ring
  refine ⟨hN n, rfl, ?_, ?_⟩
  · intro h
    rw [hN (n + 1), fail3_op_start, if_neg]
    push_cast
    omega
  · intro h
    rw [hN (n + 1), fail3_op_start, if_pos]
    · norm_cast
    · push_cast
      omega

/-- Witness for C10 at the concrete attempts 2 (second connect: captured
count 2, start signals error 42) and 5 (fifth connect: captured count 5,
start signals value 5). -/
theorem fail3_connect_advances_counter_witness :
    fail3_op_start (fail3_connectN 2) = Completion.error 42 ∧
      fail3_op_start (fail3_connectN 5) = Completion.value 5 := by
  have h1 := fail3_connect_advances_counter 1
  have h4 := fail3_connect_advances_counter 4
  refine ⟨h1.2.2.1 (by norm_num), ?_⟩
  have := h4.2.2.2 (by norm_num)
  simpa using this

/-- Claim C5: the behaviour of `_retry_receiver` and `_op::_retry`
(src/recv_sender.cpp:167-183 and 192-215), stated on one retry step of
`retryRun` for an arbitrary abstracted inner sender `connectF`:
(1) a value completion is forwarded to the outer receiver unchanged
(`set_value`, lines 171-176); (2) a done completion is forwarded unchanged
(`set_done`, lines 180-182); (3) on an error completion whose
re-construction succeeds, the inner error is NOT propagated — the loop
continues with the freshly connected and started operation state
(`set_error` → `_retry`, lines 177-179 and 206-208); (4) on an error
completion whose re-construction throws `ex`, the exception is caught and
forwarded to the error channel of the outer receiver (lines 209-211). -/
theorem retry_receiver_forwarding {σ ξ α ε : Type}
    (connectF : σ → Except ξ (σ × Completion α ε)) (fuel : Nat) (s : σ)
    (v : α) (e : ε) :
    retryRun connectF (fuel + 1) s (Completion.value v)
        = some (Completion.value v) ∧
      retryRun connectF (fuel + 1) s Completion.done
        = some Completion.done ∧
      (∀ s2 op2, connectF s = Except.ok (s2, op2) →
        retryRun connectF (fuel + 1) s (Completion.error e)
          = retryRun connectF fuel s2 op2) ∧
      (∀ ex, connectF s = Except.error ex →
        retryRun connectF (fuel + 1) s (Completion.error e)
          = some (Completion.error ex)) := by
  refine ⟨rfl, rfl, ?_, ?_⟩
  · intro s2 op2 h
    rw [retryRun, h]
  · intro ex h
    rw [retryRun, h]

/-- Witness for C5 at a concrete inner sender over `Nat` states: state 0
re-connects successfully to state 1 delivering `value 9`; state 1 throws 5
on re-construction. All four conjuncts instantiated and evaluated. -/
theorem retry_receiver_forwarding_witness :
    retryRun (fun s => if s = 0 then Except.ok (1, Completion.value 9)
        else (Except.error 5 : Except Nat (Nat × Completion Nat Nat)))
        2 0 (Completion.value 3) = some (Completion.value 3) ∧
      retryRun (fun s => if s = 0 then Except.ok (1, Completion.value 9)
        else (Except.error 5 : Except Nat (Nat × Completion Nat Nat)))
        2 0 Completion.done = some Completion.done ∧
      retryRun (fun s => if s = 0 then Except.ok (1, Completion.value 9)
        else (Except.error 5 : Except Nat (Nat × Completion Nat Nat)))
        2 0 (Completion.error 4)
        = retryRun (fun s => if s = 0 then Except.ok (1, Completion.value 9)
            else (Except.error 5 : Except Nat (Nat × Completion Nat Nat)))
            1 1 (Completion.value 9) ∧
      retryRun (fun s => if s = 0 then Except.ok (1, Completion.value 9)
        else (Except.error 5 : Except Nat (Nat × Completion Nat Nat)))
        2 1 (Completion.error 4) = some (Completion.error 5) := by
  have h0 := retry_receiver_forwarding
    (fun s => if s = 0 then Except.ok (1, Completion.value 9)
      else (Except.error 5 : Except Nat (Nat × Completion Nat Nat))) 1 0 3 4
  have h1 := retry_receiver_forwarding
    (fun s => if s = 0 then Except.ok (1, Completion.value 9)
      else (Except.error 5 : Except Nat (Nat × Completion Nat Nat))) 1 1 3 4
  exact ⟨h0.1, h0.2.1, h0.2.2.1 1 (Completion.value 9) rfl,
    h1.2.2.2 5 rfl⟩

/-- `callback_invocation_error` (src/all_prop.cpp:106-111): the marker type
every exception thrown from a Callback invocation is wrapped in; as a
`nested_exception` its construction inside the catch block captures the
in-flight exception, so it carries the original failure as a nested cause. -/
structure callback_invocation_error (ε : Type) : Type where
  cause : ε
deriving DecidableEq

/-- The observable outcome of `invoke_callback` (src/all_prop.cpp:125-132):
the invocation returns normally, or — when the callable is a Callback —
exactly one `error` signal fires on the own error channel of the callable with
the wrapped failure, or — when it is a plain invocable — the failure
propagates unmodified to the caller. -/
inductive InvokeOutcome (α ε : Type) : Type
  | returned (v : α)
  | errorSignal (e : callback_invocation_error ε)
  | thrown (e : ε)
deriving DecidableEq

/-- `try_invoke_callback` (src/all_prop.cpp:115-121): invoke the callable
inline; on a throw, route `callback_invocation_error` (nesting the original
exception `e`) to the error channel of the handler. The callable is modelled as
`Except ε α`: its normal result or the exception it throws. -/
def try_invoke_callback {α ε : Type} (c : Except ε α) : InvokeOutcome α ε :=
  match c with
  | Except.ok v => InvokeOutcome.returned v
  | Except.error e => InvokeOutcome.errorSignal ⟨e⟩

/-- `invoke_callback` (src/all_prop.cpp:125-132): `if constexpr
(CallbackSignal<C>) try_invoke_callback(c, c, …); else invoke(c, …)`.
`isCallback` is the compile-time `CallbackSignal<C>` test; for a plain
invocable the invocation is unprotected, so a throw propagates to the
caller unmodified. -/
def invoke_callback {α ε : Type} (isCallback : Bool) (c : Except ε α) :
    InvokeOutcome α ε :=
  if isCallback then
    try_invoke_callback c
  else
    match c with
    | Except.ok v => InvokeOutcome.returned v
    | Except.error e => InvokeOutcome.thrown e

/-- Claim C6: `invoke_callback` invokes the callable inline; when the
callable is a Callback and throws `e`, exactly one error signal fires on
its own error channel, carrying a single `callback_invocation_error`
marker whose nested cause is the original exception `e`; when the callable
is a plain invocable, a thrown failure propagates to the caller unmodified;
and a normally returning callable just returns its value in both shapes. -/
theorem invoke_callback_routes_errors {α ε : Type} (e : ε) (v : α) :
    invoke_callback true (Except.error e : Except ε α)
        = InvokeOutcome.errorSignal ⟨e⟩ ∧
      invoke_callback false (Except.error e : Except ε α)
        = InvokeOutcome.thrown e ∧
      invoke_callback true (Except.ok v : Except ε α)
        = InvokeOutcome.returned v ∧
      invoke_callback false (Except.ok v : Except ε α)
        = InvokeOutcome.returned v :=
  ⟨rfl, rfl, rfl, rfl⟩

/-- The hand-rolled promise of src/pres_prop.cpp: what a promise does with
a delivered value (`set_value`, src/pres_prop.cpp:41) or failure
(`set_exception`, src/pres_prop.cpp:42), continuation-style. `ρ` is the
observation produced by fulfilling the promise. -/
structure PipelinePromise (ε α ρ : Type) : Type where
  set_value : α → ρ
  set_exception : ε → ρ

/-- A task of src/pres_prop.cpp is a callable taking a promise and
eventually fulfilling it exactly once (e.g. the task of `new_thread()`,
src/pres_prop.cpp:77-85). -/
def PipelineTask (ε α ρ : Type) : Type :=
  PipelinePromise ε α ρ → ρ

/-- `then(task, fun)` (src/pres_prop.cpp:45-58): returns a task that starts
`task` with a wrapping promise whose `set_value(vs...)` calls
`p_.set_value(fun_(vs...))` — applying `fun` before forwarding downstream —
and whose `set_exception(e)` forwards `e` unchanged. -/
def thenT {ε α β ρ : Type} (task : PipelineTask ε α ρ) (fn : α → β) :
    PipelineTask ε β ρ :=
  fun p =>
    task ⟨fun v => p.set_value (fn v), fun e => p.set_exception e⟩

/-- The final state `sync_wait` observes (src/pres_prop.cpp:60-75): the
task fulfilled the shared `_state` cell with a value (returned by move) or
with a failure (re-raised). -/
inductive SyncWaitResult (ε α : Type) : Type
  | value (v : α)
  | exception (e : ε)
deriving DecidableEq

/-- `sync_wait<T>(task)` (src/pres_prop.cpp:60-75): start the task with a
promise bound to fresh state, wait until the state is fulfilled, then
return the stored value or re-raise the stored failure. -/
def sync_wait {ε α : Type} (task : PipelineTask ε α (SyncWaitResult ε α)) :
    SyncWaitResult ε α :=
  task ⟨SyncWaitResult.value, SyncWaitResult.exception⟩

/-- A task that delivers the value `v` to its promise (the shape of
the task made by `new_thread()`, src/pres_prop.cpp:77-85, which calls
`p.set_value()` once on its thread). -/
def taskOf {ε α ρ : Type} (v : α) : PipelineTask ε α ρ :=
  fun p => p.set_value v

/-- A task that delivers the failure `e` to its promise. -/
def taskThrow {ε α ρ : Type} (e : ε) : PipelineTask ε α ρ :=
  fun p => p.set_exception e

/-- Claim C7: for every task delivering value `v`, `sync_wait` of two
chained `then` stages returns `g (f v)` — both transformations applied in
chaining order (first conjunct); a single stage returns `f v` (second);
the wrapping promise built by `then` applies `fn` inside `set_value`
before forwarding downstream and forwards `set_exception` unchanged
(third and fourth conjuncts, for an arbitrary downstream promise `p`); and
the exception of a failing task passes through `then` stages to `sync_wait`
unchanged (fifth conjunct). -/
theorem sync_wait_then_chain {ε α β γ : Type} {ρ : Type} (v : α)
    (f : α → β) (g : β → γ) (e : ε) (p : PipelinePromise ε β ρ) :
    sync_wait (thenT (thenT (taskOf v : PipelineTask ε α (SyncWaitResult ε γ)) f) g)
        = SyncWaitResult.value (g (f v)) ∧
      sync_wait (thenT (taskOf v : PipelineTask ε α (SyncWaitResult ε β)) f)
        = SyncWaitResult.value (f v) ∧
      thenT (taskOf v : PipelineTask ε α ρ) f p = p.set_value (f v) ∧
      thenT (taskThrow e : PipelineTask ε α ρ) f p = p.set_exception e ∧
      sync_wait (thenT (thenT (taskThrow e : PipelineTask ε α (SyncWaitResult ε γ)) f) g)
        = SyncWaitResult.exception e :=
  ⟨rfl, rfl, rfl, rfl, rfl⟩

/-- `count_lines` (src/thread_pool.cpp:428-443): the file is a list of
bytes; each loop iteration computes `bytesToRead = min(4096, fileSize -
offset)`, reads at `offset`, counts newline bytes (10) among the
`bytesRead` bytes actually returned, and advances `offset` by `bytesRead`,
until `offset` reaches the file size. The read is abstracted by `oracle`:
the read at `offset` returns `min (oracle offset) bytesToRead` bytes (a
read never returns more than requested), namely the file bytes
`[offset, offset + bytesRead)`. `fuel` bounds the iterations; `none`
models a loop that never finishes (e.g. reads that keep returning 0). -/
def count_lines : Nat → List Nat → (Nat → Nat) → Nat → Nat → Option Nat
  | 0, _, _, _, _ => none
  | Nat.succ fuel, file, oracle, offset, newlineCount =>
    if offset < file.length then
      let bytesToRead := min 4096 (file.length - offset)
      let bytesRead := min (oracle offset) bytesToRead
      count_lines fuel file oracle (offset + bytesRead)
        (newlineCount + ((file.drop offset).take bytesRead).count 10)
    else some newlineCount

theorem count_lines_go (file : List Nat) (oracle : Nat → Nat)
    (hpos : ∀ i, 1 ≤ oracle i) :
    ∀ fuel offset newlineCount, file.length - offset < fuel →
      count_lines fuel file oracle offset newlineCount
        = some (newlineCount + (file.drop offset).count 10) := by
  intro fuel
  induction fuel with
  | zero =>
    intro offset newlineCount h
    exact absurd h (Nat.not_lt_zero _)
  | succ fuel ih =>
    intro offset newlineCount h
    by_cases hlt : offset < file.length
    · have hb1 : 1 ≤ min (oracle offset) (min 4096 (file.length - offset)) :=
        le_min (hpos offset) (le_min (by norm_num) (by omega))
      simp only [count_lines, if_pos hlt]
      rw [ih _ _ (by omega)]
      congr 1
      have hdrop : file.drop
            (offset + min (oracle offset) (min 4096 (file.length - offset)))
          = (file.drop offset).drop
              (min (oracle offset) (min 4096 (file.length - offset))) := by
        rw [List.drop_drop, Nat.add_comm]
      rw [hdrop]
      conv_rhs => rw [← List.take_append_drop
        (min (oracle offset) (min 4096 (file.length - offset)))
        (file.drop offset), List.count_append]
      omega
    · simp only [count_lines, if_neg hlt]
      rw [List.drop_eq_nil_of_le (by omega)]
      simp

/-- Claim C4: for every file and every way the reads are chunked (any
per-read returned size of at least one byte, never more than requested),
the async line-counter returns exactly the number of newline bytes in the
file: each iteration requests `min 4096 (size - offset)` bytes, counts the
newlines among the bytes actually returned and advances by that amount,
until the offset reaches the file size. `file.length + 1` iterations
always suffice since every read returns at least one byte. -/
theorem count_lines_counts_newlines (file : List Nat) (oracle : Nat → Nat)
    (hpos : ∀ i, 1 ≤ oracle i) :
    count_lines (file.length + 1) file oracle 0 0 = some (file.count 10) := by
  have h := count_lines_go file oracle hpos (file.length + 1) 0 0 (by omega)
  simpa using h

/-- Witness for C4: a five-byte file with exactly two newline bytes, read
one byte at a time (forcing five reads), yields 2. -/
theorem count_lines_counts_newlines_witness :
    count_lines 6 [104, 10, 105, 10, 33] (fun _ => 1) 0 0 = some 2 := by
  have h := count_lines_counts_newlines [104, 10, 105, 10, 33] (fun _ => 1)
    (fun _ => Nat.le_refl 1)
  exact h
